import Mathlib

/-!
Verification of CopyCuTTer's schema-normalization and context-resolution core
(`src/copycutter/text_question.py`).

The embedding models Python dicts as insertion-ordered association lists with
unique keys, the two widget classes (`TextQuestion`, `SelectQuestion`) as
records of the state their constructors and `value` properties expose, the two
schema parsers (`parse_cookie_cutter`, `parse_copier`) as structural recursions
over the schema's entry list, and the two generate actions
(`call_cookie_template`, `call_copier_template`) as pure functions from widget
state and a render oracle to an outcome plus the list of backend calls made.
-/

/-- Python dict lookup `d[k]` on an insertion-ordered association list;
`none` stands in for a raised `KeyError`. -/
def dictGet? {α : Type} : List (String × α) → String → Option α
  | [], _ => none
  | p :: rest, k => if p.1 = k then some p.2 else dictGet? rest k

/-- Python dict assignment `d[k] = v`: overwrite the entry in place when the
key exists, otherwise append at the end (insertion order is preserved, as the
source depends on). -/
def dictInsert : List (String × String) → String → String → List (String × String)
  | [], k, v => [(k, v)]
  | p :: rest, k, v => if p.1 = k then (k, v) :: rest else p :: dictInsert rest k v

/-- `TextQuestion` widget state: `placeholder` and `prompt` from the
constructor, `property_val` is the schema key, and `input_value` models
`self._input.value` (empty for a fresh `Input`; `parse_copier` pre-fills it
when the record has a `default`). `value` in the source returns the triple
(label, `input_value`, `property_val`). -/
structure TextQuestion where
  placeholder : String
  property_val : String
  prompt : String
  input_value : String
deriving DecidableEq

/-- `SelectQuestion` widget state: `lines` are the option labels handed to the
`Select` widget (as `(line, line)` label/value pairs, so value = label),
`extras` models `self._extras` (the label-to-value dict when present), and
`selection` models `self._input.value` — `none` for the widget's blank
no-selection sentinel, `some l` when the user picked the option labelled
`l`. -/
structure SelectQuestion where
  lines : List String
  property_val : String
  prompt : String
  extras : Option (List (String × String))
  selection : Option String
deriving DecidableEq

/-- A form widget as produced by the two parsers. -/
inductive FormWidget where
  | text (q : TextQuestion)
  | select (q : SelectQuestion)
deriving DecidableEq

/-- The schema key (`property_val`) a widget carries. -/
def FormWidget.key : FormWidget → String
  | .text q => q.property_val
  | .select q => q.property_val

/-- `self.query(TextQuestion)`: the text widgets of the form, in order. -/
def textsOf (ws : List FormWidget) : List TextQuestion :=
  ws.filterMap (fun w => match w with | .text t => some t | _ => none)

/-- `self.query(SelectQuestion)`: the select widgets of the form, in order. -/
def selectsOf (ws : List FormWidget) : List SelectQuestion :=
  ws.filterMap (fun w => match w with | .select s => some s | _ => none)

/-- Modelled from the spec: the external `Select` widget's internal `_options`
list carries a synthetic blank "unselected" placeholder entry at index 0 ahead
of the real choices (spec 4.3 and 9); each real choice contributes a
`(label, value)` pair with value = label here, and the blank entry's value is
the no-selection sentinel, modelled as `none`. -/
def selectOptions (q : SelectQuestion) : List (String × Option String) :=
  ("", none) :: q.lines.map (fun l => (l, some l))

/-- `list(select._input._options)[1][0]`: the label at index 1 of the widget's
option list, i.e. the first declared choice (`none` models the `IndexError`
raised when the widget has no real options). -/
def optionOneLabel? (q : SelectQuestion) : Option String :=
  ((selectOptions q)[1]?).map Prod.fst

/-- Python's `prompt[0][0] != "_"` test, negated: whether the key's first
character is an underscore. On an empty key the source raises `IndexError`;
the embedding returns `false` there, and theorems quantifying over schemas
keep nonempty-key hypotheses. -/
def startsWithUnderscore (s : String) : Bool :=
  s.data.head? == some '_'

/-- A value of a `cookiecutter.json`-style (Simple dialect) schema entry.
`promptsTable` is the shape of the reserved `__prompts__` entry; `other`
covers every shape the parser's `isinstance` chain does not recognize. -/
inductive PromptVal where
  | str (s : String)
  | dict (d : List (String × String))
deriving DecidableEq

inductive CookieVal where
  | str (s : String)
  | list (xs : List String)
  | promptsTable (p : List (String × PromptVal))
  | other
deriving DecidableEq

/-- Result of `read_cookie_cutter`: the whole dict when `__prompts__` is
present, otherwise the entry list (`list(cookie_handle.items())`). -/
inductive CookieTemplate where
  | withPrompts (handle : List (String × CookieVal))
  | plain (entries : List (String × CookieVal))
deriving DecidableEq

def read_cookie_cutter (handle : List (String × CookieVal)) : CookieTemplate :=
  if (dictGet? handle "__prompts__").isSome then .withPrompts handle else .plain handle

/-- The no-`__prompts__` branch of `parse_cookie_cutter`: iterate the schema
entries in order, skip keys starting with `_` (the source tests
`prompt[0][0] != "_"`, so an empty key would raise `IndexError`; theorems keep
nonempty-key hypotheses for that reason), a `str` value gives
`TextQuestion(value, key, key)`, a `list` value gives
`SelectQuestion(value, key, key, None)`, and any other shape is silently
skipped. -/
def parseCookiePlain : List (String × CookieVal) → List FormWidget
  | [] => []
  | p :: rest =>
    if startsWithUnderscore p.1 then parseCookiePlain rest
    else
      match p.2 with
      | .str s => .text ⟨s, p.1, p.1, ""⟩ :: parseCookiePlain rest
      | .list xs => .select ⟨xs, p.1, p.1, none, none⟩ :: parseCookiePlain rest
      | _ => parseCookiePlain rest

/-- `inv_map = {v: k for k, v in tmp.items()}`: a Python dict comprehension,
so a later pair overwrites an earlier one when two entries share a value. -/
def invMapOf (tmp : List (String × String)) : List (String × String) :=
  tmp.foldl (fun m q => dictInsert m q.2 q.1) []

/-- Lines 204-217 of the source: copy the dict-shaped prompts entry, delete
`__prompt__` (the source's `del tmp["__prompt__"]` raises `KeyError` when the
sub-key is missing; theorems that need it assume it present), build `inv_map`,
and create the `SelectQuestion` whose option labels are the remaining dict's
values, label `prompts[prompt]["__prompt__"]`, and extras `inv_map`. -/
def cookiePromptDictWidget (key : String) (d : List (String × String)) : FormWidget :=
  let tmp := d.filter (fun q => q.1 != "__prompt__")
  .select ⟨tmp.map Prod.snd, key, (dictGet? d "__prompt__").getD "",
           some (invMapOf tmp), none⟩

/-- The `__prompts__` branch of `parse_cookie_cutter`: iterate the keys of the
`__prompts__` table (note: this branch applies no underscore filter, unlike
the other two), look each key up in the schema dict. A `str` schema value
gives `TextQuestion(value, key, prompts[key])` (when the prompts entry is
dict-shaped the source passes the dict object through as the label; that
ill-typed corner is outside the modelled universe and no theorem touches it).
A `list` schema value with a dict-shaped prompts entry goes through
`cookiePromptDictWidget`; with a plain string prompts entry it gives
`SelectQuestion(value, key, label, None)`. Other shapes are skipped (a key
missing from the schema raises `KeyError` in the source). -/
def parseCookieWithPrompts (handle : List (String × CookieVal)) :
    List (String × PromptVal) → List FormWidget
  | [] => []
  | e :: rest =>
    match dictGet? handle e.1 with
    | some (.str s) =>
      match e.2 with
      | .str lbl => .text ⟨s, e.1, lbl, ""⟩ :: parseCookieWithPrompts handle rest
      | .dict _ => parseCookieWithPrompts handle rest
    | some (.list xs) =>
      match e.2 with
      | .dict d => cookiePromptDictWidget e.1 d :: parseCookieWithPrompts handle rest
      | .str lbl => .select ⟨xs, e.1, lbl, none, none⟩ :: parseCookieWithPrompts handle rest
    | _ => parseCookieWithPrompts handle rest

/-- `parse_cookie_cutter` over the schema read by `read_cookie_cutter`
(the `__prompts__` entry itself must hold a prompts table; any other shape
makes the source misbehave and is left outside the modelled universe). -/
def parse_cookie_cutter (handle : List (String × CookieVal)) : List FormWidget :=
  match read_cookie_cutter handle with
  | .withPrompts h =>
    match dictGet? h "__prompts__" with
    | some (.promptsTable p) => parseCookieWithPrompts h p
    | _ => []
  | .plain entries => parseCookiePlain entries

/-- The `choices` field of a `copier.yml` record: a label-to-value dict or a
plain list of options. -/
inductive ChoicesVal where
  | dict (d : List (String × String))
  | list (xs : List String)
deriving DecidableEq

/-- One `copier.yml` record, with the optional fields `parse_copier`
inspects. -/
structure CopierRec where
  choices : Option ChoicesVal
  help : Option String
  defaultVal : Option String
  placeholder : Option String
deriving DecidableEq

/-- `parse_copier`: iterate the schema entries in order, skip keys starting
with `_`. An entry with dict-shaped `choices` gives a `SelectQuestion` whose
option labels are the dict's keys and whose extras is the dict itself (no
inversion), labelled by `help` when present, else by the key. List-shaped
`choices` gives a `SelectQuestion` over the list with no extras. Without
`choices` the entry is a `TextQuestion`: with `help`, the `placeholder` field
becomes the widget placeholder and the `default` field pre-fills the input
value, each when present; without `help`, the source ignores `placeholder`
and `default` and builds `TextQuestion("", key, key)`. -/
def parse_copier : List (String × CopierRec) → List FormWidget
  | [] => []
  | e :: rest =>
    if startsWithUnderscore e.1 then parse_copier rest
    else
      match e.2.choices with
      | some (.dict d) =>
        (match e.2.help with
         | some h => FormWidget.select ⟨d.map Prod.fst, e.1, h, some d, none⟩
         | none => FormWidget.select ⟨d.map Prod.fst, e.1, e.1, some d, none⟩)
          :: parse_copier rest
      | some (.list xs) =>
        (match e.2.help with
         | some h => FormWidget.select ⟨xs, e.1, h, none, none⟩
         | none => FormWidget.select ⟨xs, e.1, e.1, none, none⟩)
          :: parse_copier rest
      | none =>
        (match e.2.help with
         | some h =>
           match e.2.placeholder with
           | some ph =>
             (match e.2.defaultVal with
              | some dv => FormWidget.text ⟨ph, e.1, h, dv⟩
              | none => FormWidget.text ⟨ph, e.1, h, ""⟩)
           | none =>
             (match e.2.defaultVal with
              | some dv => FormWidget.text ⟨"", e.1, h, dv⟩
              | none => FormWidget.text ⟨"", e.1, h, ""⟩)
         | none => FormWidget.text ⟨"", e.1, e.1, ""⟩)
          :: parse_copier rest

/-- FreeText resolution in `call_cookie_template`: Python truthiness
`if text.value[1]:` — non-empty user input wins, otherwise the placeholder
(which holds the Simple dialect's default). -/
def cookieTextValue (t : TextQuestion) : String :=
  if t.input_value ≠ "" then t.input_value else t.placeholder

/-- The text loop of `call_cookie_template`. -/
def cookieTextsCtx : List TextQuestion → List (String × String) → List (String × String)
  | [], c => c
  | t :: ts, c => cookieTextsCtx ts (dictInsert c t.property_val (cookieTextValue t))

/-- The five branches of the select loop of `call_cookie_template`
(lines 357-379), in source order: selection present with/without a dict of
extras, then the three no-selection branches — the dict branch, a later-added
duplicate of the dict branch guarded by the identical condition, and the raw
default branch. -/
inductive CookieSelBranch where
  | selMapped
  | selRaw
  | defMapFirst
  | defMapSecond
  | defRaw
deriving DecidableEq

/-- The first no-selection dict lookup of the source:
`select.value[-1][str(select._input._options[1][0])]` (`str()` on a string
label is the identity, so it is the lookup of the label at widget option
index 1). -/
def cookieDefaultExprFirst (q : SelectQuestion) (m : List (String × String)) : Option String :=
  (optionOneLabel? q).bind (fun l => dictGet? m l)

/-- The second, later-added no-selection dict lookup of the source:
`select.value[-1][list(select._input._options)[1][0]]` — on the modelled
string-labelled widgets it computes the same lookup as the first
expression. -/
def cookieDefaultExprSecond (q : SelectQuestion) (m : List (String × String)) : Option String :=
  (optionOneLabel? q).bind (fun l => dictGet? m l)

/-- Which branch of the `if`/`elif`/`elif`/`else` chain of the select loop of
`call_cookie_template` fires for a given widget state. -/
def cookieSelectBranch (q : SelectQuestion) : CookieSelBranch :=
  match q.selection with
  | some _ =>
    match q.extras with
    | some _ => .selMapped
    | none => .selRaw
  | none =>
    match q.extras with
    | some _ => .defMapFirst
    | none =>
      match q.extras with
      | some _ => .defMapSecond
      | none => .defRaw

/-- The value the select loop of `call_cookie_template` stores for one
`SelectQuestion` (`none` models the `KeyError` and `IndexError` crashes). -/
def cookieSelectValue? (q : SelectQuestion) : Option String :=
  match q.selection with
  | some s =>
    match q.extras with
    | some m => dictGet? m s
    | none => some s
  | none =>
    match q.extras with
    | some m => cookieDefaultExprFirst q m
    | none =>
      match q.extras with
      | some m => cookieDefaultExprSecond q m
      | none => optionOneLabel? q

/-- The select loop of `call_cookie_template`. -/
def cookieSelectsCtx : List SelectQuestion → List (String × String) →
    Option (List (String × String))
  | [], c => some c
  | q :: qs, c =>
    match cookieSelectValue? q with
    | some v => cookieSelectsCtx qs (dictInsert c q.property_val v)
    | none => none

/-- The context `call_cookie_template` builds (texts first, then selects);
`none` models a raised `KeyError` or `IndexError`. -/
def cookieContext (texts : List TextQuestion) (selects : List SelectQuestion) :
    Option (List (String × String)) :=
  cookieSelectsCtx selects (cookieTextsCtx texts [])

/-- How resolution in `call_copier_template` can fail short of rendering:
the early `return` on a FreeText with empty input (the spec's
`RequiredValueMissing`), and the `KeyError` / `IndexError` crashes of the
select loop. -/
inductive ResolveErr where
  | requiredValueMissing
  | keyError
  | indexError
deriving DecidableEq

/-- The text loop of `call_copier_template`: non-empty input is used
verbatim; an empty input aborts the whole action (`return`) — the
commented-out placeholder fallback of line 419 never runs. -/
def copierTextsCtx : List TextQuestion → List (String × String) →
    Except ResolveErr (List (String × String))
  | [], c => .ok c
  | t :: ts, c =>
    if t.input_value ≠ "" then copierTextsCtx ts (dictInsert c t.property_val t.input_value)
    else .error .requiredValueMissing

/-- The value the select loop of `call_copier_template` stores for one
`SelectQuestion`: a selection is mapped through the extras dict when that is
present, else used verbatim; with no selection the raw label at widget option
index 1 is used, never consulting the extras dict. -/
def copierSelectValue (q : SelectQuestion) : Except ResolveErr String :=
  match q.selection with
  | some s =>
    match q.extras with
    | none => .ok s
    | some m =>
      match dictGet? m s with
      | some v => .ok v
      | none => .error .keyError
  | none =>
    match optionOneLabel? q with
    | some l => .ok l
    | none => .error .indexError

/-- The select loop of `call_copier_template`. -/
def copierSelectsCtx : List SelectQuestion → List (String × String) →
    Except ResolveErr (List (String × String))
  | [], c => .ok c
  | q :: qs, c =>
    match copierSelectValue q with
    | .ok v => copierSelectsCtx qs (dictInsert c q.property_val v)
    | .error e => .error e

/-- The context `call_copier_template` builds, or the abort/crash that
prevented it. -/
def copierResolve (texts : List TextQuestion) (selects : List SelectQuestion) :
    Except ResolveErr (List (String × String)) :=
  match copierTextsCtx texts [] with
  | .ok c => copierSelectsCtx selects c
  | .error e => .error e

/-- Failure kinds of the legacy (cookiecutter) backend:
`OutputDirExistsException` and everything else. -/
inductive CookieRenderErr where
  | outputDirExists
  | otherFailure
deriving DecidableEq

/-- Observable side effects of `call_cookie_template` after resolution
succeeds: `Path("tmp").mkdir(exist_ok=True)`, `shutil.rmtree("tmp")`, and the
`cookiecutter(...)` calls with their arguments. -/
inductive CookieOp where
  | mkdirTmp
  | rmtreeTmp
  | renderCall (template : String) (ctx : List (String × String))
deriving DecidableEq

/-- The try/except of `call_cookie_template` (lines 382-399): mkdir the
output dir, call the backend; on `OutputDirExistsException` rmtree the output
dir, recreate it, and call again with the same arguments — a second failure
of any kind, and a first failure other than output-exists, propagates
uncaught. `render n` is the outcome of the n-th backend call. -/
def cookieDispatch (template : String) (ctx : List (String × String))
    (render : Nat → Except CookieRenderErr Unit) :
    Except CookieRenderErr Unit × List CookieOp :=
  match render 0 with
  | .ok u => (.ok u, [.mkdirTmp, .renderCall template ctx])
  | .error .outputDirExists =>
    (render 1,
     [.mkdirTmp, .renderCall template ctx, .rmtreeTmp, .mkdirTmp,
      .renderCall template ctx])
  | .error e => (.error e, [.mkdirTmp, .renderCall template ctx])

/-- Failure kinds of the structured (copier) backend:
`UnsafeTemplateError` (here `notTrusted`) and everything else. -/
inductive CopierRenderErr where
  | notTrusted
  | otherFailure
deriving DecidableEq

/-- One `run_copy` invocation's arguments; `escalate` models the explicit
allow-unsafe flag the source passes only on the retry. -/
structure CopierCall where
  src : String
  dst : String
  data : List (String × String)
  escalate : Bool
deriving DecidableEq

/-- The try/except of `call_copier_template` (lines 438-446): call the
backend without the escalation flag; on `UnsafeTemplateError` call once more
with the flag set and the same source, destination and context — a second
failure of any kind, and a first failure of any other kind, propagates
uncaught. -/
def copierDispatch (template : String) (ctx : List (String × String))
    (render : CopierCall → Except CopierRenderErr Unit) :
    Except CopierRenderErr Unit × List CopierCall :=
  match render ⟨template, "tmp", ctx, false⟩ with
  | .ok u => (.ok u, [⟨template, "tmp", ctx, false⟩])
  | .error .notTrusted =>
    (render ⟨template, "tmp", ctx, true⟩,
     [⟨template, "tmp", ctx, false⟩, ⟨template, "tmp", ctx, true⟩])
  | .error e => (.error e, [⟨template, "tmp", ctx, false⟩])

/-- Outcome of one cookie generate action. -/
inductive CookieGenOutcome where
  | crashed
  | rendered (r : Except CookieRenderErr Unit)

/-- `call_cookie_template` end to end: build the context, then dispatch; a
resolution crash performs no side effect. -/
def call_cookie_template (texts : List TextQuestion) (selects : List SelectQuestion)
    (template : String) (render : Nat → Except CookieRenderErr Unit) :
    CookieGenOutcome × List CookieOp :=
  match cookieContext texts selects with
  | none => (.crashed, [])
  | some ctx =>
    let r := cookieDispatch template ctx render
    (.rendered r.1, r.2)

/-- Outcome of one copier generate action. -/
inductive CopierGenOutcome where
  | aborted (e : ResolveErr)
  | rendered (r : Except CopierRenderErr Unit)

/-- `call_copier_template` end to end: resolve, and only on success dispatch
to the backend; the early return (and any crash) makes no backend call and
produces no context. The method only reads widget state, so the question
sequence is left as it was. -/
def call_copier_template (texts : List TextQuestion) (selects : List SelectQuestion)
    (template : String) (render : CopierCall → Except CopierRenderErr Unit) :
    CopierGenOutcome × List CopierCall :=
  match copierResolve texts selects with
  | .error e => (.aborted e, [])
  | .ok ctx =>
    let r := copierDispatch template ctx render
    (.rendered r.1, r.2)

/-! ## Dictionary lemmas -/

theorem dictGet?_dictInsert_self (m : List (String × String)) (k v : String) :
    dictGet? (dictInsert m k v) k = some v := by
  induction m with
  | nil => simp [dictInsert, dictGet?]
  | cons p rest ih =>
    by_cases h : p.1 = k
    · simp [dictInsert, dictGet?, h]
    · simp [dictInsert, dictGet?, h, ih]

theorem dictGet?_dictInsert_ne (m : List (String × String)) (k v k' : String)
    (h : k' ≠ k) : dictGet? (dictInsert m k v) k' = dictGet? m k' := by
  induction m with
  | nil => simp [dictInsert, dictGet?, Ne.symm h]
  | cons p rest ih =>
    by_cases hp : p.1 = k
    · simp [dictInsert, dictGet?, hp, Ne.symm h]
    · simp only [dictInsert, if_neg hp, dictGet?]
      by_cases hp' : p.1 = k'
      · simp [hp']
      · simp [hp', ih]

theorem invMapOf_append_singleton (tmp : List (String × String)) (q : String × String) :
    invMapOf (tmp ++ [q]) = dictInsert (invMapOf tmp) q.2 q.1 := by
  simp [invMapOf, List.foldl_append]

/-- The dict comprehension `{v: k for k, v in tmp.items()}` is a two-sided
inverse on every entry, provided no two entries of `tmp` share a value. -/
theorem invMapOf_get :
    ∀ tmp : List (String × String), (tmp.map Prod.snd).Nodup →
      ∀ k v : String, (k, v) ∈ tmp → dictGet? (invMapOf tmp) v = some k := by
  intro tmp
  induction tmp using List.reverseRecOn with
  | nil => intro _ k v hmem; simp at hmem
  | append_singleton tmp' q ih =>
    intro hnd k v hmem
    rw [List.map_append, List.nodup_append] at hnd
    rw [invMapOf_append_singleton]
    rcases List.mem_append.mp hmem with hin | hq
    · have hv : v ∈ tmp'.map Prod.snd := List.mem_map_of_mem Prod.snd hin
      have hvq : v ≠ q.2 := by
        intro hEq
        exact hnd.2.2 hv (by simp [hEq])
      rw [dictGet?_dictInsert_ne _ _ _ _ hvq]
      exact ih hnd.1 k v hin
    · have : (k, v) = q := by simpa using hq
      subst this
      exact dictGet?_dictInsert_self _ _ _

/-! ## Claim theorems -/

/-- C1 (amended): for every Choice question on which the user made no
selection, context resolution assigns the label at index 1 of the widget's
option list — which is the first declared option, since index 0 holds the
widget's synthetic blank entry — mapped through `labelToValue` when that
mapping is present under the Simple dialect; the Structured dialect always
assigns the raw label, never consulting `labelToValue`. -/
theorem C1_theorem (q : SelectQuestion) (l : String)
    (hsel : q.selection = none) (hl : q.lines.head? = some l) :
    optionOneLabel? q = some l ∧
    (∀ m, q.extras = some m → cookieSelectValue? q = dictGet? m l) ∧
    (q.extras = none → cookieSelectValue? q = some l) ∧
    copierSelectValue q = .ok l := by
  have hopt : optionOneLabel? q = some l := by
    cases hq : q.lines with
    | nil => rw [hq] at hl; simp at hl
    | cons a as =>
      rw [hq] at hl
      simp at hl
      simp [optionOneLabel?, selectOptions, hq, hl]
  refine ⟨hopt, ?_, ?_, ?_⟩
  · intro m hm
    simp [cookieSelectValue?, hsel, hm, cookieDefaultExprFirst, hopt]
  · intro hm
    simp [cookieSelectValue?, hsel, hm, hopt]
  · simp [copierSelectValue, hsel, hopt]

def c1q : SelectQuestion :=
  ⟨["MIT", "BSD"], "license", "license", some [("MIT", "mit-id")], none⟩

theorem C1_witness :
    optionOneLabel? c1q = some "MIT" ∧
    cookieSelectValue? c1q = dictGet? [("MIT", "mit-id")] "MIT" ∧
    copierSelectValue c1q = .ok "MIT" :=
  ⟨(C1_theorem c1q "MIT" rfl rfl).1,
   (C1_theorem c1q "MIT" rfl rfl).2.1 [("MIT", "mit-id")] rfl,
   (C1_theorem c1q "MIT" rfl rfl).2.2.2⟩

/-- C1 fails as stated: on the spec's own scenario (Simple schema
`{"project_name": "My Project", "license": ["MIT", "BSD"]}`, `project_name`
edited to `"Widget"`, `license` left unselected) the resolved context maps
`license` to `"MIT"` (the first declared option — widget option index 1 sits
after the synthetic blank), not `"BSD"`; and under the Structured dialect an
unselected Choice with a `labelToValue` mapping resolves to the raw label,
not the mapped value. -/
theorem C1_counterexample :
    parse_cookie_cutter [("project_name", .str "My Project"),
        ("license", .list ["MIT", "BSD"])] =
      [.text ⟨"My Project", "project_name", "project_name", ""⟩,
       .select ⟨["MIT", "BSD"], "license", "license", none, none⟩] ∧
    cookieContext [⟨"My Project", "project_name", "project_name", "Widget"⟩]
      [⟨["MIT", "BSD"], "license", "license", none, none⟩] =
      some [("project_name", "Widget"), ("license", "MIT")] ∧
    cookieContext [⟨"My Project", "project_name", "project_name", "Widget"⟩]
      [⟨["MIT", "BSD"], "license", "license", none, none⟩] ≠
      some [("project_name", "Widget"), ("license", "BSD")] ∧
    copierSelectValue
      ⟨["Alpha", "Beta"], "name", "Pick one", some [("Alpha", "a"), ("Beta", "b")], none⟩ =
      .ok "Alpha" :=
  ⟨by decide, by decide, by decide, rfl⟩

/-- C10: in the select loop of `call_cookie_template`, the later-added
no-selection dict branch is guarded by the same condition as the first and
therefore never fires: for every widget state the branch taken is never
`defMapSecond`, and whenever an unselected Choice carries a `labelToValue`
dict its value is the one computed by the first lookup expression (which
coincides with the second expression on string labels). -/
theorem C10_theorem (q : SelectQuestion) :
    cookieSelectBranch q ≠ .defMapSecond ∧
    (q.selection = none → ∀ m, q.extras = some m →
      cookieSelectBranch q = .defMapFirst ∧
      cookieSelectValue? q = cookieDefaultExprFirst q m ∧
      cookieDefaultExprFirst q m = cookieDefaultExprSecond q m) := by
  constructor
  · cases hs : q.selection <;> cases he : q.extras <;>
      simp [cookieSelectBranch, hs, he]
  · intro hs m hm
    exact ⟨by simp [cookieSelectBranch, hs, hm],
           by simp [cookieSelectValue?, hs, hm], rfl⟩

def c10q : SelectQuestion := ⟨["L1", "L2"], "key", "key", some [("L1", "v1")], none⟩

theorem C10_witness :
    cookieSelectBranch c10q ≠ .defMapSecond ∧
    cookieSelectBranch c10q = .defMapFirst ∧
    cookieSelectValue? c10q = cookieDefaultExprFirst c10q [("L1", "v1")] ∧
    cookieDefaultExprFirst c10q [("L1", "v1")] = cookieDefaultExprSecond c10q [("L1", "v1")] :=
  ⟨(C10_theorem c10q).1,
   ((C10_theorem c10q).2 rfl [("L1", "v1")] rfl).1,
   ((C10_theorem c10q).2 rfl [("L1", "v1")] rfl).2.1,
   ((C10_theorem c10q).2 rfl [("L1", "v1")] rfl).2.2⟩

/-- The text loop of `call_copier_template` hits the early `return` whenever
any text widget's input is empty: all earlier widgets are folded into the
context, and reaching the empty one aborts. -/
theorem copierTextsCtx_abort :
    ∀ (texts : List TextQuestion) (c : List (String × String)) (t : TextQuestion),
      t ∈ texts → t.input_value = "" →
      copierTextsCtx texts c = .error .requiredValueMissing := by
  intro texts
  induction texts with
  | nil => intro c t ht _; simp at ht
  | cons t' ts ih =>
    intro c t ht he
    rcases List.mem_cons.mp ht with rfl | hmem
    · simp [copierTextsCtx, he]
    · by_cases h' : t'.input_value = ""
      · simp [copierTextsCtx, h']
      · rw [copierTextsCtx, if_pos h']
        exact ih _ t hmem he

/-- C2: under the Structured dialect, a generate action in which some FreeText
question has an empty edited value (in particular one with no declared
default, whose input nothing pre-filled) aborts with the early return the
spec names `RequiredValueMissing`: the backend is never called, no retry
occurs, and no context — partial or otherwise — is produced. The source
method only reads widget state, so the normalized question sequence is
untouched and the form stays interactive. -/
theorem C2_theorem (texts : List TextQuestion) (selects : List SelectQuestion)
    (template : String) (render : CopierCall → Except CopierRenderErr Unit)
    (t : TextQuestion) (ht : t ∈ texts) (he : t.input_value = "") :
    call_copier_template texts selects template render =
      (.aborted .requiredValueMissing, []) := by
  unfold call_copier_template copierResolve
  rw [copierTextsCtx_abort texts [] t ht he]

def c2texts : List TextQuestion :=
  textsOf (parse_copier [("name", ⟨none, some "Your name", none, none⟩)])

theorem C2_witness :
    call_copier_template c2texts [] "tmpl" (fun _ => .ok ()) =
      (.aborted .requiredValueMissing, []) :=
  C2_theorem c2texts [] "tmpl" (fun _ => .ok ())
    ⟨"", "name", "Your name", ""⟩ (by decide) rfl

/-- C3 (amended): non-empty edited input is used verbatim under both
dialects; with empty input and a non-empty default, the Simple dialect falls
back to the placeholder-held default and never to the empty string, while the
Structured dialect aborts the generate action instead of falling back
(a declared `default` only pre-fills the editable value there). -/
theorem C3_theorem (t : TextQuestion) (hd : t.placeholder ≠ "") :
    (t.input_value ≠ "" →
      cookieTextValue t = t.input_value ∧
      copierTextsCtx [t] [] = .ok [(t.property_val, t.input_value)]) ∧
    (t.input_value = "" →
      cookieTextValue t = t.placeholder ∧
      cookieTextValue t ≠ "" ∧
      copierTextsCtx [t] [] = .error .requiredValueMissing) := by
  constructor
  · intro h
    exact ⟨by simp [cookieTextValue, h], by simp [copierTextsCtx, h, dictInsert]⟩
  · intro h
    refine ⟨by simp [cookieTextValue, h], ?_, by simp [copierTextsCtx, h]⟩
    simp [cookieTextValue, h, hd]

def c3t : TextQuestion := ⟨"Default Name", "name", "name", ""⟩

theorem C3_witness :
    cookieTextValue c3t = "Default Name" ∧
    cookieTextValue c3t ≠ "" ∧
    copierTextsCtx [c3t] [] = .error .requiredValueMissing :=
  (C3_theorem c3t (by decide)).2 rfl

/-- C3 fails as stated: a Structured-dialect FreeText question parsed from
`{"k": {"help": "h", "default": "d"}}` carries the non-empty default `"d"`
(pre-filled into its input), yet when the user edits the value to empty the
resolution aborts rather than resolving to `"d"` — the placeholder fallback
of the Simple dialect does not exist under the Structured dialect. -/
theorem C3_counterexample :
    parse_copier [("k", ⟨none, some "h", some "d", none⟩)] =
      [.text ⟨"", "k", "h", "d"⟩] ∧
    copierTextsCtx [⟨"", "k", "h", ""⟩] [] = .error .requiredValueMissing ∧
    copierResolve [⟨"", "k", "h", ""⟩] [] ≠ .ok [("k", "d")] := by
  refine ⟨by decide, rfl, ?_⟩
  intro h
  rw [show copierResolve [⟨"", "k", "h", ""⟩] [] = .error .requiredValueMissing from rfl] at h
  exact Except.noConfusion h

/-- C4 (amended): for a Simple-dialect schema whose `__prompts__` entry for a
list-valued key is a dict containing `__prompt__`, the produced Choice's
option labels are the dict's values minus `__prompt__` and its `labelToValue`
is `inv_map`; provided no two entries of the label table share a display
label, `inv_map` is the exact inverse and the round-trip
`labelToValue[value_to_label[v]] = v` holds for every entry (the dict
comprehension keeps only the last pair on a label collision, so for
non-injective tables the round-trip fails). -/
theorem C4_theorem (key : String) (xs : List String) (d : List (String × String))
    (hkey : key ≠ "__prompts__")
    (hinj : ((d.filter (fun q => q.1 != "__prompt__")).map Prod.snd).Nodup) :
    parse_cookie_cutter [(key, .list xs), ("__prompts__", .promptsTable [(key, .dict d)])] =
      [cookiePromptDictWidget key d] ∧
    cookiePromptDictWidget key d =
      .select ⟨(d.filter (fun q => q.1 != "__prompt__")).map Prod.snd, key,
               (dictGet? d "__prompt__").getD "",
               some (invMapOf (d.filter (fun q => q.1 != "__prompt__"))), none⟩ ∧
    ∀ p ∈ d.filter (fun q => q.1 != "__prompt__"),
      dictGet? (invMapOf (d.filter (fun q => q.1 != "__prompt__"))) p.2 = some p.1 := by
  refine ⟨?_, rfl, ?_⟩
  · simp [parse_cookie_cutter, read_cookie_cutter, parseCookieWithPrompts, dictGet?, hkey]
  · intro p hp
    exact invMapOf_get _ hinj p.1 p.2 (by rw [Prod.mk.eta]; exact hp)

def c4d : List (String × String) := [("__prompt__", "P"), ("a", "La"), ("b", "Lb")]

theorem C4_witness :
    parse_cookie_cutter [("k", .list ["x"]),
        ("__prompts__", .promptsTable [("k", .dict c4d)])] =
      [cookiePromptDictWidget "k" c4d] ∧
    ∀ p ∈ c4d.filter (fun q => q.1 != "__prompt__"),
      dictGet? (invMapOf (c4d.filter (fun q => q.1 != "__prompt__"))) p.2 = some p.1 :=
  ⟨(C4_theorem ("k") ["x"] c4d (by decide) (by decide)).1,
   (C4_theorem ("k") ["x"] c4d (by decide) (by decide)).2.2⟩

/-- C4 fails as stated: when two underlying values share a display label
(label table `{"a": "L", "b": "L"}`), the comprehension keeps only the last
pair, `labelToValue` is `{"L": "b"}`, and the round-trip fails for the entry
`("a", "L")`: `labelToValue[value_to_label["a"]] = "b" ≠ "a"`. -/
theorem C4_counterexample :
    parse_cookie_cutter [("k", .list ["x", "y"]),
        ("__prompts__",
         .promptsTable [("k", .dict [("__prompt__", "P"), ("a", "L"), ("b", "L")])])] =
      [.select ⟨["L", "L"], "k", "P", some [("L", "b")], none⟩] ∧
    ("a", "L") ∈ [("__prompt__", "P"), ("a", "L"), ("b", "L")].filter
      (fun q => q.1 != "__prompt__") ∧
    dictGet? [("L", "b")] "L" ≠ some "a" :=
  ⟨by decide, by decide, by decide⟩

/-- C5: when the first legacy-backend call fails with output-exists, the
dispatcher deletes the output directory recursively, recreates it, and
retries exactly once with the same template and context (two render calls
with identical arguments, one rmtree); the retry's outcome — including a
second output-exists collision — is propagated to the caller with no further
retry. -/
theorem C5_theorem (template : String) (ctx : List (String × String))
    (render : Nat → Except CookieRenderErr Unit)
    (h0 : render 0 = .error .outputDirExists) :
    (cookieDispatch template ctx render).1 = render 1 ∧
    (cookieDispatch template ctx render).2 =
      [.mkdirTmp, .renderCall template ctx, .rmtreeTmp, .mkdirTmp,
       .renderCall template ctx] ∧
    ((cookieDispatch template ctx render).2.countP
      (fun o => match o with | CookieOp.renderCall _ _ => true | _ => false)) = 2 ∧
    ((cookieDispatch template ctx render).2.countP
      (fun o => match o with | CookieOp.rmtreeTmp => true | _ => false)) = 1 ∧
    (∀ e, render 1 = .error e → (cookieDispatch template ctx render).1 = .error e) := by
  have hd : cookieDispatch template ctx render =
      (render 1,
       [.mkdirTmp, .renderCall template ctx, .rmtreeTmp, .mkdirTmp,
        .renderCall template ctx]) := by
    unfold cookieDispatch
    rw [h0]
  refine ⟨by rw [hd], by rw [hd], ?_, ?_, ?_⟩
  · rw [hd]; simp [List.countP_cons]
  · rw [hd]; simp [List.countP_cons]
  · intro e he
    rw [hd]
    exact he

def c5render : Nat → Except CookieRenderErr Unit
  | 0 => .error .outputDirExists
  | _ => .ok ()

theorem C5_witness :
    c5render 0 = .error .outputDirExists ∧
    (cookieDispatch "t" [("k", "v")] c5render).1 = c5render 1 ∧
    (cookieDispatch "t" [("k", "v")] c5render).2 =
      [.mkdirTmp, .renderCall "t" [("k", "v")], .rmtreeTmp, .mkdirTmp,
       .renderCall "t" [("k", "v")]] :=
  ⟨rfl, (C5_theorem ("t") [("k", "v")] c5render rfl).1,
   (C5_theorem ("t") [("k", "v")] c5render rfl).2.1⟩

/-- C6: when the first structured-backend call fails because the template is
not trusted, the dispatcher retries exactly once with the explicit escalation
flag and the same source, destination and context; the retry's outcome
(success or any failure) is propagated with no further retry, and a first
failure of any other kind is propagated immediately with a single call
made. -/
theorem C6_theorem (template : String) (ctx : List (String × String))
    (render : CopierCall → Except CopierRenderErr Unit)
    (h0 : render ⟨template, "tmp", ctx, false⟩ = .error .notTrusted) :
    (copierDispatch template ctx render).1 = render ⟨template, "tmp", ctx, true⟩ ∧
    (copierDispatch template ctx render).2 =
      [⟨template, "tmp", ctx, false⟩, ⟨template, "tmp", ctx, true⟩] ∧
    (∀ e, render ⟨template, "tmp", ctx, true⟩ = .error e →
      (copierDispatch template ctx render).1 = .error e) ∧
    (∀ render' : CopierCall → Except CopierRenderErr Unit, ∀ e,
      e ≠ CopierRenderErr.notTrusted →
      render' ⟨template, "tmp", ctx, false⟩ = .error e →
      copierDispatch template ctx render' = (.error e, [⟨template, "tmp", ctx, false⟩])) := by
  have hd : copierDispatch template ctx render =
      (render ⟨template, "tmp", ctx, true⟩,
       [⟨template, "tmp", ctx, false⟩, ⟨template, "tmp", ctx, true⟩]) := by
    unfold copierDispatch
    rw [h0]
  refine ⟨by rw [hd], by rw [hd], ?_, ?_⟩
  · intro e he
    rw [hd]
    exact he
  · intro render' e hne he
    unfold copierDispatch
    rw [he]
    cases e with
    | notTrusted => exact absurd rfl hne
    | otherFailure => rfl

def c6render : CopierCall → Except CopierRenderErr Unit :=
  fun c => if c.escalate then .ok () else .error .notTrusted

theorem C6_witness :
    c6render ⟨"t", "tmp", [("k", "v")], false⟩ = .error .notTrusted ∧
    (copierDispatch "t" [("k", "v")] c6render).1 =
      c6render ⟨"t", "tmp", [("k", "v")], true⟩ ∧
    (copierDispatch "t" [("k", "v")] c6render).2 =
      [⟨"t", "tmp", [("k", "v")], false⟩, ⟨"t", "tmp", [("k", "v")], true⟩] :=
  ⟨rfl, (C6_theorem ("t") [("k", "v")] c6render rfl).1,
   (C6_theorem ("t") [("k", "v")] c6render rfl).2.1⟩

/-- `parse_copier` processes entries independently, so it distributes over
append. -/
theorem parse_copier_append (l1 l2 : List (String × CopierRec)) :
    parse_copier (l1 ++ l2) = parse_copier l1 ++ parse_copier l2 := by
  induction l1 with
  | nil => simp [parse_copier]
  | cons q l1' ih =>
    by_cases hq : startsWithUnderscore q.1
    · simp [parse_copier, hq, ih]
    · rcases hc : q.2.choices with _ | cv
      · rcases hh : q.2.help with _ | h
        · simp [parse_copier, hq, hc, hh, ih]
        · rcases hph : q.2.placeholder with _ | ph <;>
            rcases hdv : q.2.defaultVal with _ | dv <;>
            simp [parse_copier, hq, hc, hh, hph, hdv, ih]
      · cases cv with
        | dict d => rcases hh : q.2.help with _ | h <;> simp [parse_copier, hq, hc, hh, ih]
        | list xs => rcases hh : q.2.help with _ | h <;> simp [parse_copier, hq, hc, hh, ih]

/-- C7: for a Simple-dialect schema without `__prompts__` whose values are
all strings or lists (and whose keys are nonempty), the widgets are in
one-to-one order-preserving correspondence with the non-underscore-prefixed
schema entries: a string value yields the `TextQuestion` with that default
and the key as label, a list value the `SelectQuestion` with the list
verbatim and no label-to-value dict. -/
theorem C7_theorem (entries : List (String × CookieVal))
    (hwf : ∀ p ∈ entries, p.1 ≠ "" ∧
      ((∃ s, p.2 = CookieVal.str s) ∨ (∃ xs, p.2 = CookieVal.list xs))) :
    List.Forall₂ (fun (p : String × CookieVal) (w : FormWidget) =>
        (∀ s, p.2 = CookieVal.str s → w = .text ⟨s, p.1, p.1, ""⟩) ∧
        (∀ xs, p.2 = CookieVal.list xs → w = .select ⟨xs, p.1, p.1, none, none⟩))
      (entries.filter (fun p => !(startsWithUnderscore p.1)))
      (parseCookiePlain entries) := by
  induction entries with
  | nil => simp [parseCookiePlain]
  | cons p rest ih =>
    have hp := hwf p (List.mem_cons_self p rest)
    have hrest : ∀ q ∈ rest, q.1 ≠ "" ∧
        ((∃ s, q.2 = CookieVal.str s) ∨ (∃ xs, q.2 = CookieVal.list xs)) :=
      fun q hq => hwf q (List.mem_cons_of_mem p hq)
    by_cases hu : startsWithUnderscore p.1 = true
    · have h1 : parseCookiePlain (p :: rest) = parseCookiePlain rest := by
        simp [parseCookiePlain, hu]
      have h2 : (p :: rest).filter (fun q => !(startsWithUnderscore q.1)) =
          rest.filter (fun q => !(startsWithUnderscore q.1)) := by
        simp [List.filter_cons, hu]
      rw [h1, h2]
      exact ih hrest
    · have h2 : (p :: rest).filter (fun q => !(startsWithUnderscore q.1)) =
          p :: rest.filter (fun q => !(startsWithUnderscore q.1)) := by
        simp [List.filter_cons, hu]
      rcases hp.2 with ⟨s, hv⟩ | ⟨xs, hv⟩
      · have h1 : parseCookiePlain (p :: rest) =
            FormWidget.text ⟨s, p.1, p.1, ""⟩ :: parseCookiePlain rest := by
          simp [parseCookiePlain, hu, hv]
        rw [h1, h2]
        refine List.Forall₂.cons ⟨?_, ?_⟩ (ih hrest)
        · intro s' hs'
          rw [hv] at hs'
          simp only [CookieVal.str.injEq] at hs'
          subst hs'
          rfl
        · intro xs' hxs'
          rw [hv] at hxs'
          simp at hxs'
      · have h1 : parseCookiePlain (p :: rest) =
            FormWidget.select ⟨xs, p.1, p.1, none, none⟩ :: parseCookiePlain rest := by
          simp [parseCookiePlain, hu, hv]
        rw [h1, h2]
        refine List.Forall₂.cons ⟨?_, ?_⟩ (ih hrest)
        · intro s' hs'
          rw [hv] at hs'
          simp at hs'
        · intro xs' hxs'
          rw [hv] at hxs'
          simp only [CookieVal.list.injEq] at hxs'
          subst hxs'
          rfl

def c7entries : List (String × CookieVal) :=
  [("project_name", .str "My Project"), ("_internal", .str "x"),
   ("license", .list ["MIT", "BSD"])]

theorem C7_witness :
    List.Forall₂ (fun (p : String × CookieVal) (w : FormWidget) =>
        (∀ s, p.2 = CookieVal.str s → w = .text ⟨s, p.1, p.1, ""⟩) ∧
        (∀ xs, p.2 = CookieVal.list xs → w = .select ⟨xs, p.1, p.1, none, none⟩))
      (c7entries.filter (fun p => !(startsWithUnderscore p.1)))
      (parseCookiePlain c7entries) :=
  C7_theorem c7entries (by
    intro p hp
    rcases List.mem_cons.mp hp with rfl | hp
    · exact ⟨by decide, Or.inl ⟨"My Project", rfl⟩⟩
    · rcases List.mem_cons.mp hp with rfl | hp
      · exact ⟨by decide, Or.inl ⟨"x", rfl⟩⟩
      · rcases List.mem_cons.mp hp with rfl | hp
        · exact ⟨by decide, Or.inr ⟨["MIT", "BSD"], rfl⟩⟩
        · simp at hp)

/-- C8: a Structured-dialect entry with dict-shaped `choices` yields, at its
position, a Choice whose option labels are the dict's keys, whose
label-to-value dict is the `choices` object unchanged (no inversion), and
whose display label is the `help` text when present, else the key. -/
theorem C8_theorem (pre post : List (String × CopierRec)) (k : String) (r : CopierRec)
    (d : List (String × String))
    (hk : startsWithUnderscore k = false) (hch : r.choices = some (.dict d)) :
    parse_copier (pre ++ (k, r) :: post) =
      parse_copier pre ++
        FormWidget.select ⟨d.map Prod.fst, k, r.help.getD k, some d, none⟩ ::
          parse_copier post := by
  rw [parse_copier_append]
  rcases hh : r.help with _ | h <;>
    simp [parse_copier, hk, hch, hh]

def c8rec : CopierRec :=
  ⟨some (.dict [("Alpha", "a"), ("Beta", "b")]), some "Pick one", none, none⟩

theorem C8_witness :
    parse_copier [("x", ⟨none, none, none, none⟩), ("name", c8rec)] =
      parse_copier [("x", ⟨none, none, none, none⟩)] ++
        FormWidget.select ⟨["Alpha", "Beta"], "name", "Pick one",
          some [("Alpha", "a"), ("Beta", "b")], none⟩ :: parse_copier [] :=
  C8_theorem [("x", ⟨none, none, none, none⟩)] [] "name" c8rec
    [("Alpha", "a"), ("Beta", "b")] (by decide) rfl

/-- No widget produced by the no-`__prompts__` Simple branch carries an
underscore-prefixed key. -/
theorem parseCookiePlain_no_underscore :
    ∀ (entries : List (String × CookieVal)) (w : FormWidget),
      w ∈ parseCookiePlain entries → startsWithUnderscore w.key = false := by
  intro entries
  induction entries with
  | nil => intro w hw; simp [parseCookiePlain] at hw
  | cons p rest ih =>
    intro w hw
    simp only [parseCookiePlain] at hw
    split at hw
    · exact ih w hw
    · rename_i hcond
      have hu : startsWithUnderscore p.1 = false := by simpa using hcond
      split at hw
      · rcases List.mem_cons.mp hw with rfl | hw'
        · simpa [FormWidget.key] using hu
        · exact ih w hw'
      · rcases List.mem_cons.mp hw with rfl | hw'
        · simpa [FormWidget.key] using hu
        · exact ih w hw'
      · exact ih w hw

/-- No widget produced by the Structured-dialect parser carries an
underscore-prefixed key. -/
theorem parse_copier_no_underscore :
    ∀ (centries : List (String × CopierRec)) (w : FormWidget),
      w ∈ parse_copier centries → startsWithUnderscore w.key = false := by
  intro centries
  induction centries with
  | nil => intro w hw; simp [parse_copier] at hw
  | cons e rest ih =>
    intro w hw
    simp only [parse_copier] at hw
    split at hw
    · exact ih w hw
    · rename_i hcond
      have hu : startsWithUnderscore e.1 = false := by simpa using hcond
      split at hw
      · rcases List.mem_cons.mp hw with rfl | hw'
        · rcases hh : e.2.help with _ | h <;> simp [hh, FormWidget.key, hu]
        · exact ih w hw'
      · rcases List.mem_cons.mp hw with rfl | hw'
        · rcases hh : e.2.help with _ | h <;> simp [hh, FormWidget.key, hu]
        · exact ih w hw'
      · rcases List.mem_cons.mp hw with rfl | hw'
        · rcases hh : e.2.help with _ | h <;>
            rcases hph : e.2.placeholder with _ | ph <;>
            rcases hdv : e.2.defaultVal with _ | dv <;>
            simp [hh, hph, hdv, FormWidget.key, hu]
        · exact ih w hw'

/-- C9 (amended): the no-`__prompts__` Simple branch and the Structured
branch never produce a Question whose key begins with an underscore; the
`__prompts__` branch applies no such filter (see the counterexample). -/
theorem C9_theorem (entries : List (String × CookieVal))
    (centries : List (String × CopierRec))
    (h1 : ∀ p ∈ entries, p.1 ≠ "") (h2 : ∀ p ∈ centries, p.1 ≠ "") :
    (∀ w ∈ parseCookiePlain entries, startsWithUnderscore w.key = false) ∧
    (∀ w ∈ parse_copier centries, startsWithUnderscore w.key = false) :=
  ⟨fun w hw => parseCookiePlain_no_underscore entries w hw,
   fun w hw => parse_copier_no_underscore centries w hw⟩

def c9entries : List (String × CookieVal) :=
  [("a", .str "1"), ("_b", .str "2"), ("c", .list ["x"])]

def c9centries : List (String × CopierRec) :=
  [("d", ⟨none, some "h", none, none⟩), ("_e", ⟨none, none, none, none⟩)]

theorem C9_witness :
    (∀ w ∈ parseCookiePlain c9entries, startsWithUnderscore w.key = false) ∧
    (∀ w ∈ parse_copier c9centries, startsWithUnderscore w.key = false) :=
  C9_theorem c9entries c9centries (by decide) (by decide)

/-- C9 fails as stated for the `__prompts__` branch: the schema
`{"_foo": "bar", "__prompts__": {"_foo": "Label"}}` produces a Question whose
key `_foo` begins with an underscore, because that branch iterates the
`__prompts__` keys without any underscore filter. -/
theorem C9_counterexample :
    parse_cookie_cutter [("_foo", .str "bar"),
        ("__prompts__", .promptsTable [("_foo", .str "Label")])] =
      [.text ⟨"bar", "_foo", "Label", ""⟩] ∧
    startsWithUnderscore (FormWidget.key (.text ⟨"bar", "_foo", "Label", ""⟩)) = true :=
  ⟨by decide, by decide⟩
